import Mathlib

/-!
Verification of the cli-auth OAuth2/PKCE core against its specification.

The Python sources are shallowly embedded: pure functions become Lean
functions, the HTTP callback handler becomes a state transformer, the
post-wait portion of the login command becomes a function of the
exogenous driver outcome and the latched callback result, and the
credential file becomes an explicit map from paths to contents with the
write sequence of write_tokens spelled out as a list of file-system
operations.  Machine-level concerns (sockets, threads, wall clock,
network) enter as explicit parameters.
-/

namespace CliAuth

/-! ## Python-style helpers -/

/-- Truthiness of an optional string, as Python evaluates `if x:` for a
value that is either None or a str: None and the empty string are falsy. -/
def truthyS : Option String → Bool
  | none => false
  | some s => !s.isEmpty

/-- A Python dict from string keys to values that are None or a string,
as an association list in insertion order (sufficient for the two-key
RESULT dict of CodeHandler). -/
abbrev StrDict := List (String × Option String)

/-- Python `d.get(k, dflt)`: the stored value when the key is present —
even when that stored value is None — and the default only when the key
is absent. -/
def dictGetD : StrDict → String → Option String → Option String
  | [], _, dflt => dflt
  | kv :: rest, k, dflt => if kv.1 = k then kv.2 else dictGetD rest k dflt

/-- Python `d[k] = v`: replace in place when the key is present,
append otherwise. -/
def dictSet : StrDict → String → Option String → StrDict
  | [], k, v => [(k, v)]
  | kv :: rest, k, v => if kv.1 = k then (k, v) :: rest else kv :: dictSet rest k v

/-- Split a character list at the first occurrence of a separator;
the second component is none when the separator does not occur. -/
def splitFirst (sep : Char) : List Char → List Char × Option (List Char)
  | [] => ([], none)
  | c :: rest =>
    if c = sep then ([], some rest)
    else
      let p := splitFirst sep rest
      (c :: p.1, p.2)

/-- The path and query components of a URL reference. -/
structure UrlParts where
  path : String
  query : String
deriving DecidableEq

/-- Models `urllib.parse.urlparse` as used by this code base: the
fragment after the first `#` is cut off, the query is what stands
between the first `?` and the fragment, the path is what precedes the
`?`.  (The scheme/netloc split of absolute URLs is not modelled; the
code only reads `.query` from absolute URLs, and `.path` from
origin-form request targets, for which this agrees with Python.) -/
def urlparse (s : String) : UrlParts :=
  let noFrag := (splitFirst '#' s.data).1
  let p := splitFirst '?' noFrag
  { path := ⟨p.1⟩, query := ⟨p.2.getD []⟩ }

/-- Split a character list at every occurrence of a separator (the
semantics of str.split with a one-character separator). -/
def splitSepChar (sep : Char) : List Char → List (List Char)
  | [] => [[]]
  | c :: rest =>
    if c = sep then [] :: splitSepChar sep rest
    else
      match splitSepChar sep rest with
      | [] => [[c]]
      | h :: t => (c :: h) :: t

/-- Models `urllib.parse.parse_qs` (keep_blank_values=False) restricted
to queries without percent-escapes or plus-encoded spaces — every query
string this code base produces or that the claims mention is of that
form.  Pairs are kept in order of occurrence; a field without `=` or
with an empty value is dropped, splitting happens at the first `=`. -/
def qsPairs (q : String) : List (String × String) :=
  (splitSepChar '&' q.data).filterMap (fun part =>
    match splitFirst '=' part with
    | (_, none) => none
    | (k, some v) => if v = [] then none else some (⟨k⟩, ⟨v⟩))

/-- Python `parse_qs(q).get(k, [None])[0]`: the first value bound to a
key, if any. -/
def qsGet : List (String × String) → String → Option String
  | [], _ => none
  | kv :: rest, k => if kv.1 = k then some kv.2 else qsGet rest k

/-! ## JSON (the subset handled sufficing for the credential bundle) -/

/-- JSON values: objects, arrays, strings, integers, booleans, null.
(Floats and \u escapes are outside what the credential file uses.) -/
inductive JVal where
  | null : JVal
  | jbool : Bool → JVal
  | jnum : Int → JVal
  | jstr : String → JVal
  | jarr : List JVal → JVal
  | jobj : List (String × JVal) → JVal

/-- Drop JSON insignificant whitespace. -/
def skipWs (cs : List Char) : List Char :=
  cs.dropWhile (fun c => c == ' ' || c == '\n' || c == '\t' || c == '\r')

/-- Decode a JSON string escape character. -/
def escChar : Char → Option Char
  | 'n' => some '\n'
  | 'r' => some '\r'
  | 't' => some '\t'
  | '"' => some '"'
  | '/' => some '/'
  | '\\' => some '\\'
  | _ => none

/-- Parse the body of a JSON string after the opening quote, returning
the decoded characters and the remainder after the closing quote. -/
def parseStringBody : List Char → Option (List Char × List Char)
  | [] => none
  | '\\' :: e :: rest =>
    match escChar e with
    | none => none
    | some c => (parseStringBody rest).map (fun pr => (c :: pr.1, pr.2))
  | '"' :: rest => some ([], rest)
  | c :: rest => (parseStringBody rest).map (fun pr => (c :: pr.1, pr.2))

/-- Parse a run of decimal digits. -/
def parseDigits (cs : List Char) : Option (Nat × List Char) :=
  let ds := cs.takeWhile (fun c => c.isDigit)
  if ds = [] then none
  else some (ds.foldl (fun acc c => acc * 10 + (c.toNat - 48)) 0,
             cs.dropWhile (fun c => c.isDigit))

mutual

/-- Fueled recursive-descent JSON value reader. -/
def parseVal : Nat → List Char → Option (JVal × List Char)
  | 0, _ => none
  | f + 1, cs =>
    match skipWs cs with
    | [] => none
    | 'n' :: rest =>
      if rest.take 3 = ['u', 'l', 'l'] then some (.null, rest.drop 3) else none
    | 't' :: rest =>
      if rest.take 3 = ['r', 'u', 'e'] then some (.jbool true, rest.drop 3) else none
    | 'f' :: rest =>
      if rest.take 4 = ['a', 'l', 's', 'e'] then some (.jbool false, rest.drop 4) else none
    | '"' :: rest => (parseStringBody rest).map (fun pr => (.jstr ⟨pr.1⟩, pr.2))
    | '[' :: rest =>
      (match skipWs rest with
       | ']' :: rest2 => some (.jarr [], rest2)
       | _ => (parseItems f rest).map (fun pr => (.jarr pr.1, pr.2)))
    | '\x7b' :: rest =>
      (match skipWs rest with
       | '\x7d' :: rest2 => some (.jobj [], rest2)
       | _ => (parseMembers f rest).map (fun pr => (.jobj pr.1, pr.2)))
    | '-' :: rest => (parseDigits rest).map (fun pr => (.jnum (-(pr.1 : Int)), pr.2))
    | c :: rest =>
      if c.isDigit then (parseDigits (c :: rest)).map (fun pr => (.jnum (pr.1 : Int), pr.2))
      else none

/-- Comma-separated array items up to the closing bracket. -/
def parseItems : Nat → List Char → Option (List JVal × List Char)
  | 0, _ => none
  | f + 1, cs =>
    match parseVal f cs with
    | none => none
    | some (v, rest) =>
      match skipWs rest with
      | ',' :: rest2 => (parseItems f rest2).map (fun pr => (v :: pr.1, pr.2))
      | ']' :: rest2 => some ([v], rest2)
      | _ => none

/-- Comma-separated object members up to the closing brace. -/
def parseMembers : Nat → List Char → Option (List (String × JVal) × List Char)
  | 0, _ => none
  | f + 1, cs =>
    match skipWs cs with
    | '"' :: rest =>
      (match parseStringBody rest with
       | none => none
       | some (key, rest2) =>
         match skipWs rest2 with
         | ':' :: rest3 =>
           (match parseVal f rest3 with
            | none => none
            | some (v, rest4) =>
              match skipWs rest4 with
              | ',' :: rest5 =>
                (parseMembers f rest5).map (fun pr => ((⟨key⟩, v) :: pr.1, pr.2))
              | '\x7d' :: rest5 => some ([(⟨key⟩, v)], rest5)
              | _ => none)
         | _ => none)
    | _ => none

end

/-- Models `json.load` on the whole file content: parse one value and
require only whitespace to remain; None models a raised
json.JSONDecodeError. -/
def json_load (s : String) : Option JVal :=
  match parseVal (2 * s.length + 2) s.data with
  | some (v, rest) => if skipWs rest = [] then some v else none
  | none => none

/-! ## storage.py -/

/-- The Python exceptions that the storage layer can let escape. -/
inductive PyExc where
  | jsonDecodeError : PyExc
deriving DecidableEq

/-- Embeds `read_tokens` (storage.py lines 10-15).  The file argument is
the content of CONFIG_PATH, none when the file is missing (so that
`open` raises FileNotFoundError, the only exception the try block
catches).  A json.JSONDecodeError from `json.load` is not caught and
escapes to the caller. -/
def read_tokens (file : Option String) : Except PyExc (Option JVal) :=
  match file with
  | none => .ok none
  | some s =>
    match json_load s with
    | some j => .ok (some j)
    | none => .error .jsonDecodeError

/-- The persisted credential bundle (the dict fields that storage.py
reads or writes), every field optional as in a Python dict. -/
structure Bundle where
  access_token : Option String := none
  refresh_token : Option String := none
  token_type : Option String := none
  scope : Option String := none
  expires_in : Option Int := none
  obtained_at : Option Int := none
  client_id : Option String := none
  redirect_uri : Option String := none
deriving DecidableEq

/-- Embeds `is_expired` (storage.py lines 29-31):
`now() >= tok.get("obtained_at", 0) + tok.get("expires_in", 0) - 60`,
with the wall clock passed in explicitly. -/
def is_expired (tnow : Int) (tok : Bundle) : Bool :=
  decide (tnow ≥ tok.obtained_at.getD 0 + tok.expires_in.getD 0 - 60)

/-- A successful token-endpoint JSON response as `refresh` reads it:
access_token, expires_in and token_type are indexed (KeyError if
absent, so required here), refresh_token and scope are read with
`.get` (optional). -/
structure TokenResponse where
  access_token : String
  refresh_token : Option String := none
  expires_in : Int
  token_type : String
  scope : Option String := none
deriving DecidableEq

/-- Embeds `refresh` (storage.py lines 33-55) with the HTTP exchange
made explicit: `status` and `j` are the providers response, `tnow` the
wall clock at the refresh.  The first component is the bundle passed to
`write_tokens` (none when nothing is written), the second the returned
value or the raised RuntimeError message.  The `\x7b**tok, ...\x7d`
spread keeps every stored field not overridden (client_id,
redirect_uri in particular). -/
def refresh (tok : Bundle) (status : Nat) (j : TokenResponse) (tnow : Int) :
    Option Bundle × Except String Bundle :=
  if ¬ truthyS tok.refresh_token then
    (none, .error "No refresh_token available. Run login again.")
  else if status ≠ 200 then
    (none, .error "Refresh failed")
  else
    let updated : Bundle :=
      { tok with
        access_token := some j.access_token
        refresh_token :=
          match j.refresh_token with
          | some r => some r
          | none => tok.refresh_token
        expires_in := some j.expires_in
        token_type := some j.token_type
        scope := some (j.scope.getD (tok.scope.getD ""))
        obtained_at := some tnow }
    (some updated, .ok updated)

/-! ## oauth.py — the callback handler -/

/-- The mutable class-level state of CodeHandler that one login attempt
observes: the RESULT dict and whether DONE_EVENT has been set. -/
structure HandlerState where
  result : StrDict
  done : Bool
deriving DecidableEq

/-- An HTTP response as the handler emits it: status code, and the body
written after the headers, if any. -/
structure HttpResponse where
  status : Nat
  body : Option String
deriving DecidableEq

/-- CodeHandler.RESULT as cmd_login resets it at the start of an attempt:
both keys present, both mapped to None. -/
def initResult : StrDict := [("code", none), ("error", none)]

/-- A callback server as freshly started by cmd_login: RESULT reset,
DONE_EVENT not yet set. -/
def freshHandler : HandlerState := { result := initResult, done := false }

/-- Embeds `CodeHandler.do_GET` (oauth.py lines 19-33) as a transformer
of the handler state, taking the raw request target (`self.path`).  A
path other than /callback answers 404 and touches nothing.  Otherwise
the first `code` and `error` query values are read; a truthy error is
stored under the error key, else the code value (possibly None) is
stored under the code key; DONE_EVENT is set (cmd_login always installs
one) and 200 with the confirmation body is sent. -/
def do_GET (st : HandlerState) (reqPath : String) : HandlerState × HttpResponse :=
  if (urlparse reqPath).path ≠ "/callback" then
    (st, { status := 404, body := none })
  else
    ({ result :=
        if truthyS (qsGet (qsPairs (urlparse reqPath).query) "error") then
          dictSet st.result "error" (qsGet (qsPairs (urlparse reqPath).query) "error")
        else
          dictSet st.result "code" (qsGet (qsPairs (urlparse reqPath).query) "code"),
       done := true },
     { status := 200, body := some "You may close this window now." })

/-! ## commands.py — the login flow after the server is started -/

/-- Outcome of the `open_and_capture` browser-driver step: either the
final redirected URL it observed, or an exception it raised. -/
inductive DriverOutcome where
  | url : String → DriverOutcome
  | raises : String → DriverOutcome

/-- How a login attempt ends short of the token exchange: an uncaught
exception re-raised from a collaborator, or a SystemExit raised by
cmd_login itself. -/
inductive LoginErr where
  | pyError : String → LoginErr
  | systemExit : String → LoginErr
deriving DecidableEq

/-- Embeds cmd_login lines 131-136 (= perform_authentication lines
80-85, which are identical): the statements run after
`httpd.shutdown()` returned.  `latched` is CodeHandler.RESULT as left
by the handler (or still initResult when the 300 s wait timed out with
no callback); `code0` is the code parsed from the driver-observed final
URL at lines 124-126.  Note `latched.get("code", code0)` falls back to
code0 only when the code key is absent from the dict. -/
def resolve_after_wait (latched : StrDict) (code0 : Option String) :
    Except LoginErr String :=
  let errv := dictGetD latched "error" none
  if truthyS errv then
    .error (.systemExit ("Auth error: " ++ errv.getD ""))
  else
    match dictGetD latched "code" code0 with
    | none => .error (.systemExit "Did not receive authorization code (timeout).")
    | some c =>
      if c.isEmpty then .error (.systemExit "Did not receive authorization code (timeout).")
      else .ok c

/-- Embeds cmd_login lines 122-136 (= perform_authentication lines
70-85): the straight-line statements of one login attempt after the
callback server thread is started, with the exogenous inputs explicit.
The Bool records whether `httpd.shutdown()` was executed.  When
open_and_capture returns a final URL, the code is parsed from its
query, `event.wait(timeout=300)` returns (leaving RESULT = latched),
shutdown runs, then the result is resolved.  When open_and_capture
raises, the exception propagates out of cmd_login at line 122 — there
is no try/finally — so the statements after it, shutdown included,
never run. -/
def login_wait_phase (driver : DriverOutcome) (latched : StrDict) :
    Bool × Except LoginErr String :=
  match driver with
  | .raises m => (false, .error (.pyError m))
  | .url final_url =>
    let code0 := qsGet (qsPairs (urlparse final_url).query) "code"
    (true, resolve_after_wait latched code0)

/-! ## storage.py write_tokens — file-system model -/

/-- A file system as a map from paths to file contents. -/
def FS : Type := String → Option String

/-- Create or overwrite one file. -/
def fsWrite (fs : FS) (p : String) (c : String) : FS :=
  fun q => if q = p then some c else fs q

/-- Remove one file. -/
def fsErase (fs : FS) (p : String) : FS :=
  fun q => if q = p then none else fs q

/-- The atomic file-system operations write_tokens performs: a write
that leaves a path holding the bytes emitted so far, and `os.replace`,
which atomically renames src over dst. -/
inductive FsOp where
  | write : String → String → FsOp
  | replace : String → String → FsOp

/-- Apply one operation. -/
def applyOp (fs : FS) : FsOp → FS
  | .write p c => fsWrite fs p c
  | .replace src dst =>
    match fs src with
    | some c => fsWrite (fsErase fs src) dst c
    | none => fs

/-- Run a sequence of operations. -/
def runOps (fs : FS) (ops : List FsOp) : FS :=
  ops.foldl applyOp fs

/-- The temporary path write_tokens uses (storage.py line 19):
`tmp = CONFIG_PATH + ".tmp"`. -/
def tmp_path (p : String) : String := p ++ ".tmp"

/-- Embeds the observable file-system trace of `write_tokens`
(storage.py lines 17-26) writing serialized content to final path `p`:
`open(tmp, "w")` truncates the temporary file, `json.dump` emits the
serialization in some sequence of chunks (each write op leaves the
concatenation so far on disk), and `os.replace(tmp, p)` renames it over
the final path in one atomic step.  Interrupting the trace after any
prefix of these operations models a crash at that point. -/
def write_tokens_ops (p : String) (chunks : List String) : List FsOp :=
  ((List.scanl (fun a c => a ++ c) "" chunks).map
    (fun s => FsOp.write (tmp_path p) s)) ++ [FsOp.replace (tmp_path p) p]

/-- Directory part of a path (everything before the last slash; the
root-path corner cases of os.path.dirname do not matter for the facts
proved here). -/
def dirname (s : String) : String :=
  ⟨(((s.data.reverse).dropWhile (fun c => !(c == '/'))).drop 1).reverse⟩

/-! ## oauth.py — PKCE: SHA-256, base64url (hashlib / base64 modelled
bit-exactly; bytes are Nat below 256, 32-bit words are Nat reduced
mod 2 ^ 32) -/

/-- Addition mod 2 ^ 32. -/
def w32 (n : Nat) : Nat := n % 4294967296

/-- Rotation of a 32-bit word to the right by n positions. -/
def rotr (n x : Nat) : Nat := w32 ((x >>> n) ||| (x <<< (32 - n)))

/-- SHA-256 Ch function (the complement taken inside 32 bits). -/
def chF (x y z : Nat) : Nat := (x &&& y) ^^^ ((x ^^^ 4294967295) &&& z)

/-- SHA-256 Maj function. -/
def majF (x y z : Nat) : Nat := (x &&& y) ^^^ (x &&& z) ^^^ (y &&& z)

/-- SHA-256 big sigma 0. -/
def bsig0 (x : Nat) : Nat := rotr 2 x ^^^ rotr 13 x ^^^ rotr 22 x

/-- SHA-256 big sigma 1. -/
def bsig1 (x : Nat) : Nat := rotr 6 x ^^^ rotr 11 x ^^^ rotr 25 x

/-- SHA-256 small sigma 0. -/
def ssig0 (x : Nat) : Nat := rotr 7 x ^^^ rotr 18 x ^^^ (x >>> 3)

/-- SHA-256 small sigma 1. -/
def ssig1 (x : Nat) : Nat := rotr 17 x ^^^ rotr 19 x ^^^ (x >>> 10)

/-- Round constant k of SHA-256, in order, written in decimal (the
fractional cube roots of the first 64 primes, per FIPS 180-4). -/
def shaK : List Nat :=
  [1116352408, 1899447441, 3049323471, 3921009573, 961987163, 1508970993,
   2453635748, 2870763221, 3624381080, 310598401, 607225278, 1426881987,
   1925078388, 2162078206, 2614888103, 3248222580, 3835390401, 4022224774,
   264347078, 604807628, 770255983, 1249150122, 1555081692, 1996064986,
   2554220882, 2821834349, 2952996808, 3210313671, 3336571891, 3584528711,
   113926993, 338241895, 666307205, 773529912, 1294757372, 1396182291,
   1695183700, 1986661051, 2177026350, 2456956037, 2730485921, 2820302411,
   3259730800, 3345764771, 3516065817, 3600352804, 4094571909, 275423344,
   430227734, 506948616, 659060556, 883997877, 958139571, 1322822218,
   1537002063, 1747873779, 1955562222, 2024104815, 2227730452, 2361852424,
   2428436474, 2756734187, 3204031479, 3329325298]

/-- Starting hash state of SHA-256, written in decimal (the fractional
square roots of the first 8 primes, per FIPS 180-4). -/
def shaH0 : List Nat :=
  [1779033703, 3144134277, 1013904242, 2773480762,
   1359893119, 2600822924, 528734635, 1541459225]

/-- A natural number as k big-endian bytes. -/
def natToBytesBE (k : Nat) (n : Nat) : List Nat :=
  (List.range k).map (fun i => (n >>> (8 * (k - 1 - i))) % 256)

/-- SHA-256 message padding: append 0x80, zero bytes up to 56 mod 64,
then the message length in bits as 8 big-endian bytes. -/
def sha256pad (msg : List Nat) : List Nat :=
  msg ++ [128] ++ List.replicate ((119 - msg.length % 64) % 64) 0
      ++ natToBytesBE 8 (8 * msg.length)

/-- Group 4 big-endian bytes into one 32-bit word, across a list. -/
def bytesToWordsBE : List Nat → List Nat
  | a :: b :: c :: d :: rest => (((a * 256 + b) * 256 + c) * 256 + d) :: bytesToWordsBE rest
  | _ => []

/-- Split a byte list into 64-byte blocks (fueled; called with enough
fuel to consume the whole list). -/
def chunks64 : Nat → List Nat → List (List Nat)
  | 0, _ => []
  | _, [] => []
  | f + 1, cs => cs.take 64 :: chunks64 f (cs.drop 64)

/-- Message-schedule expansion from 16 to 64 words. -/
def schedule (w16 : List Nat) : List Nat :=
  (List.range 48).foldl
    (fun w _ =>
      let n := w.length
      w ++ [w32 (ssig1 (w.getD (n - 2) 0) + w.getD (n - 7) 0 +
                 ssig0 (w.getD (n - 15) 0) + w.getD (n - 16) 0)])
    w16

/-- One SHA-256 compression round on the eight working variables. -/
def compressStep (st : List Nat) (kw : Nat × Nat) : List Nat :=
  match st with
  | [a, b, c, d, e, f, g, h] =>
    let t1 := w32 (h + bsig1 e + chF e f g + kw.1 + kw.2)
    let t2 := w32 (bsig0 a + majF a b c)
    [w32 (t1 + t2), a, b, c, w32 (d + t1), e, f, g]
  | other => other

/-- Process one 64-byte block into the running hash. -/
def processBlock (H : List Nat) (block : List Nat) : List Nat :=
  let w := schedule (bytesToWordsBE block)
  let st := (shaK.zip w).foldl compressStep H
  (H.zip st).map (fun p => w32 (p.1 + p.2))

/-- SHA-256 of a byte list, as the 32 digest bytes
(models `hashlib.sha256(data).digest()`). -/
def sha256 (msg : List Nat) : List Nat :=
  let padded := sha256pad msg
  ((chunks64 padded.length padded).foldl processBlock shaH0).map (natToBytesBE 4) |>.flatten

/-- The URL-safe base64 alphabet (RFC 4648 section 5). -/
def b64char (n : Nat) : Char :=
  "ABCDEFGHIJKLMNOPQRSTUVWXYZabcdefghijklmnopqrstuvwxyz0123456789-_".data.getD n 'A'

/-- Padded URL-safe base64 encoding of a byte list, as characters
(models `base64.urlsafe_b64encode`). -/
def encB64 : List Nat → List Char
  | [] => []
  | [a] => [b64char (a >>> 2), b64char ((a &&& 3) <<< 4), '=', '=']
  | [a, b] => [b64char (a >>> 2), b64char (((a &&& 3) <<< 4) ||| (b >>> 4)),
               b64char ((b &&& 15) <<< 2), '=']
  | a :: b :: c :: rest =>
    b64char (a >>> 2) :: b64char (((a &&& 3) <<< 4) ||| (b >>> 4)) ::
    b64char ((((b &&& 15) <<< 2) ||| (c >>> 6))) :: b64char (c &&& 63) :: encB64 rest

/-- URL-safe base64 encoding emitted without padding characters in the
first place — the wording of the specification. -/
def encNoPad : List Nat → List Char
  | [] => []
  | [a] => [b64char (a >>> 2), b64char ((a &&& 3) <<< 4)]
  | [a, b] => [b64char (a >>> 2), b64char (((a &&& 3) <<< 4) ||| (b >>> 4)),
               b64char ((b &&& 15) <<< 2)]
  | a :: b :: c :: rest =>
    b64char (a >>> 2) :: b64char (((a &&& 3) <<< 4) ||| (b >>> 4)) ::
    b64char ((((b &&& 15) <<< 2) ||| (c >>> 6))) :: b64char (c &&& 63) :: encNoPad rest

/-- Python str.rstrip("=") on a character list: remove every trailing
padding character. -/
def rstripEq (l : List Char) : List Char :=
  ((l.reverse).dropWhile (fun c => c == '=')).reverse

/-- Embeds `b64url` (oauth.py lines 4-5):
`base64.urlsafe_b64encode(data).decode().rstrip("=")`. -/
def b64url (data : List Nat) : String :=
  ⟨rstripEq (encB64 data)⟩

/-- UTF-8 encoding of one character. -/
def utf8Char (c : Char) : List Nat :=
  if c.toNat < 128 then [c.toNat]
  else if c.toNat < 2048 then [192 ||| (c.toNat >>> 6), 128 ||| (c.toNat &&& 63)]
  else if c.toNat < 65536 then
    [224 ||| (c.toNat >>> 12), 128 ||| ((c.toNat >>> 6) &&& 63), 128 ||| (c.toNat &&& 63)]
  else
    [240 ||| (c.toNat >>> 18), 128 ||| ((c.toNat >>> 12) &&& 63),
     128 ||| ((c.toNat >>> 6) &&& 63), 128 ||| (c.toNat &&& 63)]

/-- Python `s.encode()`: the UTF-8 bytes of a string. -/
def str_encode (s : String) : List Nat :=
  (s.data.map utf8Char).flatten

/-- Embeds `gen_code_challenge` (oauth.py lines 10-12):
`b64url(hashlib.sha256(verifier.encode()).digest())`. -/
def gen_code_challenge (verifier : String) : String :=
  b64url (sha256 (str_encode verifier))

/-- Modelled from the spec wording of 4.1: the SHA-256 digest of the
ASCII bytes of the verifier, URL-safe-base64 encoded without padding. -/
def derive_challenge_spec (verifier : String) : String :=
  ⟨encNoPad (sha256 (verifier.data.map Char.toNat))⟩

/-! ## commands.py — the authorization URL -/

/-- Uppercase hexadecimal digits. -/
def hexUpper : List Char := "0123456789ABCDEF".data

/-- Bytes `urllib.parse.quote` leaves unescaped with the default
safe="/": the unreserved characters and the slash. -/
def isQuoteSafe (b : Nat) : Bool :=
  decide ((65 ≤ b ∧ b ≤ 90) ∨ (97 ≤ b ∧ b ≤ 122) ∨ (48 ≤ b ∧ b ≤ 57) ∨
          b = 95 ∨ b = 46 ∨ b = 45 ∨ b = 126 ∨ b = 47)

/-- Percent-escape one byte unless it is safe. -/
def quoteByte (b : Nat) : List Char :=
  if isQuoteSafe b then [Char.ofNat b]
  else ['%', hexUpper.getD (b / 16) '0', hexUpper.getD (b % 16) '0']

/-- Models `urllib.parse.quote` with its default safe set, over the
UTF-8 bytes of the argument. -/
def pyQuote (s : String) : String :=
  ⟨((str_encode s).map quoteByte).flatten⟩

/-- The constant `state = "xyz"` of cmd_login line 99
(= perform_authentication line 46). -/
def login_state : String := "xyz"

/-- Embeds the authorization URL construction of cmd_login lines
111-120 (= perform_authentication lines 59-68), with the state value
passed in as cmd_login binds it. -/
def build_auth_url (client_id redirect_uri state challenge : String) : String :=
  "https://discord.com/oauth2/authorize" ++
  "?client_id=" ++ client_id ++
  "&response_type=code" ++
  "&redirect_uri=" ++ pyQuote redirect_uri ++
  "&scope=identify+guilds" ++
  "&state=" ++ state ++
  "&code_challenge=" ++ challenge ++
  "&code_challenge_method=S256"

/-- The query pairs that remain once every state field is removed. -/
def eraseState (q : List (String × String)) : List (String × String) :=
  q.filter (fun kv => !(kv.1 == "state"))

/-- A sample old file system for the C5 witness: the final path holds a
previous bundle serialization. -/
def sampleFS : FS :=
  fun q => if q = "cfg/config.json" then some "OLD" else none

/-! ## Shared helper lemmas -/

/-- Dropping from an append when every element of the first part is
dropped. -/
theorem dropWhile_append_all {α} (p : α → Bool) :
    ∀ (A B : List α), (∀ a ∈ A, p a = true) →
      (A ++ B).dropWhile p = B.dropWhile p
  | [], _, _ => rfl
  | a :: A, B, h => by
    rw [List.cons_append, List.dropWhile_cons, if_pos (h a (List.mem_cons_self a A)),
        dropWhile_append_all p A B (fun x hx => h x (List.mem_cons_of_mem a hx))]

/-- dropWhile changes nothing when no element satisfies the predicate. -/
theorem dropWhile_eq_self_of_all {α} (p : α → Bool) (l : List α)
    (h : ∀ a ∈ l, p a = false) : l.dropWhile p = l := by
  cases l with
  | nil => rfl
  | cons a t =>
    rw [List.dropWhile_cons, if_neg]
    simp [h a (List.mem_cons_self a t)]

/-! ## C1 — load on malformed data -/

/-- Claim C1 (counterexample): on corrupt content that is not valid
JSON, read_tokens does not return the absent result — json.load raises
a JSONDecodeError that the function does not catch. -/
theorem C1_counterexample :
    read_tokens (some "\x7b") = .error .jsonDecodeError ∧
    read_tokens (some "\x7b") ≠ .ok none := by
  constructor
  · rfl
  · intro hc
    rw [show read_tokens (some "\x7b") = .error .jsonDecodeError by rfl] at hc
    exact Except.noConfusion hc

/-- Claim C1 (amended): read_tokens returns the absent result exactly
for a missing file; content that json.load cannot parse raises the
JSONDecodeError to the caller, and valid JSON content is returned
parsed. -/
theorem C1_amended_load (s : String) :
    read_tokens none = .ok none ∧
    (json_load s = none → read_tokens (some s) = .error .jsonDecodeError) ∧
    (∀ j, json_load s = some j → read_tokens (some s) = .ok (some j)) := by
  refine ⟨rfl, ?_, ?_⟩
  · intro h
    simp [read_tokens, h]
  · intro j h
    simp [read_tokens, h]

/-- Witness for C1_amended_load at concrete file contents. -/
theorem C1_amended_load_witness :
    read_tokens none = .ok none ∧
    read_tokens (some "]") = .error .jsonDecodeError ∧
    read_tokens (some "\x7b\"a\": 1\x7d") = .ok (some (.jobj [("a", .jnum 1)])) :=
  ⟨(C1_amended_load "").1,
   (C1_amended_load "]").2.1 (by rfl),
   (C1_amended_load "\x7b\"a\": 1\x7d").2.2 _ (by rfl)⟩

/-! ## C2 — the callback latch -/

/-- Claim C2 (counterexample): on a fresh server, after a first request
/callback?code=ABC and a second request /callback?code=XYZ the latched
code is XYZ, not ABC — the handler overwrites, the first result does
not win. -/
theorem C2_counterexample :
    dictGetD ((do_GET (do_GET freshHandler "/callback?code=ABC").1
        "/callback?code=XYZ").1.result) "code" none = some "XYZ" ∧
    dictGetD ((do_GET (do_GET freshHandler "/callback?code=ABC").1
        "/callback?code=XYZ").1.result) "code" none ≠ some "ABC" := by
  refine ⟨by rfl, ?_⟩
  intro h
  rw [show dictGetD ((do_GET (do_GET freshHandler "/callback?code=ABC").1
        "/callback?code=XYZ").1.result) "code" none = some "XYZ" by rfl] at h
  exact absurd (Option.some.inj h) (by decide)

/-- Claim C2 (amended): the latch is last-wins for codes — after
?code=ABC then ?code=XYZ the latched code is XYZ; an error, once
latched, survives a later code callback (the code is recorded
alongside), and the login flow reports the error because it checks the
error key first. -/
theorem C2_amended_latch :
    (dictGetD ((do_GET (do_GET freshHandler "/callback?code=ABC").1
        "/callback?code=XYZ").1.result) "code" none = some "XYZ") ∧
    (dictGetD ((do_GET (do_GET freshHandler "/callback?error=access_denied").1
        "/callback?code=ABC").1.result) "error" none = some "access_denied") ∧
    (dictGetD ((do_GET (do_GET freshHandler "/callback?error=access_denied").1
        "/callback?code=ABC").1.result) "code" none = some "ABC") ∧
    (resolve_after_wait ((do_GET (do_GET freshHandler "/callback?error=access_denied").1
        "/callback?code=ABC").1.result) none
      = .error (.systemExit "Auth error: access_denied")) :=
  ⟨by rfl, by rfl, by rfl, by rfl⟩

/-! ## C3 — reconciling the two sources of the code -/

/-- Claim C3 (evaluation at the failing input): the driver-observed
final URL carries code GOODCODE, the callback server latched nothing
(RESULT still holding its fresh None values), yet the login aborts with the
no-code SystemExit — RESULT.get("code", code) never falls back to the
driver code because the code key is always present.  When the server
did latch a code, that code is the one used for the exchange. -/
theorem C3_driver_code_discarded :
    qsGet (qsPairs (urlparse "http://127.0.0.1:53682/callback?code=GOODCODE").query)
        "code" = some "GOODCODE" ∧
    login_wait_phase (.url "http://127.0.0.1:53682/callback?code=GOODCODE") initResult
      = (true, .error (.systemExit "Did not receive authorization code (timeout).")) ∧
    login_wait_phase (.url "http://127.0.0.1:53682/callback?code=GOODCODE")
        (dictSet initResult "code" (some "SRVCODE"))
      = (true, .ok "SRVCODE") :=
  ⟨by rfl, by rfl, by rfl⟩

/-! ## C4 — unconditional shutdown -/

/-- Claim C4 (counterexample): when the browser-driver step raises, the
exception propagates out of cmd_login before httpd.shutdown() is
reached — there is no try/finally — so the listener shutdown is not
executed on that path. -/
theorem C4_counterexample :
    (login_wait_phase (.raises "browser driver failed") initResult).1 = false :=
  by rfl

/-- Claim C4 (amended): on every path on which open_and_capture
returns — success, latched authorization error, and the 300 s timeout
with no callback — httpd.shutdown() is executed before the attempt
ends; only an exception raised before the wait (such as a browser
driver failure) skips it. -/
theorem C4_amended_shutdown (final_url : String) (latched : StrDict) :
    (login_wait_phase (.url final_url) latched).1 = true :=
  by rfl

/-! ## C6 — expiry arithmetic -/

/-- Claim C6: is_expired implements the 60-second skew margin — a
bundle is valid (not expired) exactly when now is strictly below
obtained_at + expires_in - 60; with obtained_at=1000 and
expires_in=3600 the bundle is valid at now=4539 and expired at
now=4541. -/
theorem C6_expiry_margin (tnow : Int) (tok : Bundle) :
    (is_expired tnow tok = false ↔
      tnow < tok.obtained_at.getD 0 + tok.expires_in.getD 0 - 60) ∧
    is_expired 4539 { obtained_at := some 1000, expires_in := some 3600 } = false ∧
    is_expired 4541 { obtained_at := some 1000, expires_in := some 3600 } = true := by
  refine ⟨?_, by decide, by decide⟩
  simp only [is_expired, decide_eq_false_iff_not, not_le]

/-! ## C10 — a callback with neither code nor error -/

/-- Claim C10: a GET /callback carrying neither code nor error still
records a result (both keys absent-valued), sets the one-shot event,
and answers 200 with the confirmation body; the waiting flow then
resolves to the no-code SystemExit whatever the driver-observed URL
carried. -/
theorem C10_empty_callback (dc : Option String) (final_url : String) :
    (do_GET freshHandler "/callback").1 = { result := initResult, done := true } ∧
    (do_GET freshHandler "/callback").2
      = { status := 200, body := some "You may close this window now." } ∧
    resolve_after_wait (do_GET freshHandler "/callback").1.result dc
      = .error (.systemExit "Did not receive authorization code (timeout).") ∧
    login_wait_phase (.url final_url) (do_GET freshHandler "/callback").1.result
      = (true, .error (.systemExit "Did not receive authorization code (timeout).")) :=
  ⟨by rfl, by rfl, by rfl, by rfl⟩

/-! ## C7 — refresh rotation -/

/-- Claim C7: for every stored bundle whose refresh token is truthy and
every 200 refresh response, refresh writes and returns one updated
bundle that carries the new access token, has obtained_at set to the
refresh time, keeps the prior refresh token when the response omits one
(and adopts the rotated one when present), and preserves client_id and
redirect_uri, which the response does not carry. -/
theorem C7_refresh_rotation (tok : Bundle) (j : TokenResponse) (tnow : Int)
    (hrt : truthyS tok.refresh_token = true) :
    ∃ u : Bundle,
      refresh tok 200 j tnow = (some u, .ok u) ∧
      u.access_token = some j.access_token ∧
      u.obtained_at = some tnow ∧
      (j.refresh_token = none → u.refresh_token = tok.refresh_token) ∧
      (∀ r, j.refresh_token = some r → u.refresh_token = some r) ∧
      u.client_id = tok.client_id ∧
      u.redirect_uri = tok.redirect_uri := by
  refine ⟨{ tok with
      access_token := some j.access_token
      refresh_token :=
        match j.refresh_token with
        | some r => some r
        | none => tok.refresh_token
      expires_in := some j.expires_in
      token_type := some j.token_type
      scope := some (j.scope.getD (tok.scope.getD ""))
      obtained_at := some tnow }, ?_, rfl, rfl, ?_, ?_, rfl, rfl⟩
  · simp [refresh, hrt]
  · intro h
    simp [h]
  · intro r h
    simp [h]

/-- Witness for C7_refresh_rotation at a concrete bundle and response
that omits the refresh token. -/
theorem C7_refresh_rotation_witness :
    ∃ u : Bundle,
      refresh
          { access_token := some "old", refresh_token := some "r1",
            client_id := some "cid", redirect_uri := some "uri" }
          200
          { access_token := "new", expires_in := 3600, token_type := "Bearer" }
          5000
        = (some u, .ok u) ∧
      u.access_token = some "new" ∧
      u.obtained_at = some 5000 ∧
      ((none : Option String) = none → u.refresh_token = some "r1") ∧
      (∀ r, (none : Option String) = some r → u.refresh_token = some r) ∧
      u.client_id = some "cid" ∧
      u.redirect_uri = some "uri" :=
  C7_refresh_rotation
    { access_token := some "old", refresh_token := some "r1",
      client_id := some "cid", redirect_uri := some "uri" }
    { access_token := "new", expires_in := 3600, token_type := "Bearer" }
    5000 (by decide)

/-! ## C5 — atomic persistence -/

/-- The temporary path differs from the final path (it is four
characters longer). -/
theorem tmp_path_ne (p : String) : tmp_path p ≠ p := by
  intro h
  have hl := congrArg String.length h
  have h4 : (".tmp" : String).length = 4 := rfl
  rw [tmp_path, String.length_append, h4] at hl
  omega

/-- Running any sequence of writes aimed at one path leaves every
other path unchanged. -/
theorem runOps_write_ne (q p : String) (h : p ≠ q) :
    ∀ (fs : FS) (ss : List String),
      runOps fs (ss.map (fun s => FsOp.write q s)) p = fs p
  | _, [] => rfl
  | fs, s :: ss => by
    rw [List.map_cons]
    show runOps (applyOp fs (FsOp.write q s)) (ss.map (fun s => FsOp.write q s)) p = fs p
    rw [runOps_write_ne q p h (applyOp fs (FsOp.write q s)) ss]
    simp [applyOp, fsWrite, h]

/-- Running the writes whose contents are the successive accumulations
of a scanl leaves the target holding the full accumulated content. -/
theorem runOps_write_scanl (q : String) :
    ∀ (fs : FS) (b : String) (l : List String),
      runOps fs ((List.scanl (fun a c => a ++ c) b l).map (fun s => FsOp.write q s)) q
        = some (l.foldl (fun a c => a ++ c) b)
  | fs, b, [] => by
    simp [List.scanl_nil, runOps, applyOp, fsWrite]
  | fs, b, c :: l => by
    rw [List.scanl_cons, List.singleton_append, List.map_cons]
    show runOps (applyOp fs (FsOp.write q b))
        ((List.scanl (fun a c => a ++ c) (b ++ c) l).map (fun s => FsOp.write q s)) q = _
    rw [runOps_write_scanl q (applyOp fs (FsOp.write q b)) (b ++ c) l, List.foldl_cons]

/-- Claim C5: write_tokens is an atomic replace.  The temporary path is
the final path plus a separator-free suffix (same directory), every
operation before the final rename only touches the temporary file — so
a crash at any interruption point leaves the previous content of the
final path intact — and once the whole trace has run, the final path
holds exactly the full serialized content and the temporary file is
gone. -/
theorem C5_atomic_replace (fs : FS) (p : String) (chunks : List String) (k : Nat) :
    tmp_path p ≠ p ∧
    dirname (tmp_path p) = dirname p ∧
    (k < (write_tokens_ops p chunks).length →
      runOps fs ((write_tokens_ops p chunks).take k) p = fs p) ∧
    ((write_tokens_ops p chunks).length ≤ k →
      runOps fs ((write_tokens_ops p chunks).take k) p
          = some (chunks.foldl (fun a c => a ++ c) "") ∧
      runOps fs ((write_tokens_ops p chunks).take k) (tmp_path p) = none) := by
  have hne := tmp_path_ne p
  refine ⟨hne, ?_, ?_, ?_⟩
  · unfold dirname tmp_path
    rw [String.data_append, List.reverse_append,
        dropWhile_append_all _ ((".tmp" : String).data.reverse) _ (by decide)]
  · intro hk
    rw [write_tokens_ops] at hk ⊢
    rw [List.length_append, List.length_map, List.length_singleton] at hk
    have hk2 : k ≤ ((List.scanl (fun a c => a ++ c) "" chunks).map
        (fun s => FsOp.write (tmp_path p) s)).length := by
      rw [List.length_map]
      omega
    rw [List.take_append_eq_append_take, Nat.sub_eq_zero_of_le hk2, List.take_zero,
        List.append_nil, ← List.map_take]
    exact runOps_write_ne (tmp_path p) p (Ne.symm hne) fs _
  · intro hk
    rw [List.take_of_length_le hk, write_tokens_ops, runOps, List.foldl_append]
    have hw := runOps_write_scanl (tmp_path p) fs "" chunks
    rw [runOps] at hw
    constructor
    · show applyOp _ (FsOp.replace (tmp_path p) p) p = _
      rw [applyOp, hw]
      simp [fsWrite]
    · show applyOp _ (FsOp.replace (tmp_path p) p) (tmp_path p) = _
      rw [applyOp, hw]
      simp [fsWrite, fsErase, hne]

/-- Witness for C5_atomic_replace: interrupting the concrete trace
after two of its four operations leaves the old content readable, and
running it to the end installs the full new content and removes the
temporary file. -/
theorem C5_atomic_replace_witness :
    runOps sampleFS ((write_tokens_ops "cfg/config.json" ["ab", "cd"]).take 2)
        "cfg/config.json" = some "OLD" ∧
    runOps sampleFS ((write_tokens_ops "cfg/config.json" ["ab", "cd"]).take 4)
        "cfg/config.json" = some "abcd" ∧
    runOps sampleFS ((write_tokens_ops "cfg/config.json" ["ab", "cd"]).take 4)
        (tmp_path "cfg/config.json") = none :=
  ⟨(C5_atomic_replace sampleFS "cfg/config.json" ["ab", "cd"] 2).2.2.1 (by decide),
   ((C5_atomic_replace sampleFS "cfg/config.json" ["ab", "cd"] 4).2.2.2 (by decide)).1,
   ((C5_atomic_replace sampleFS "cfg/config.json" ["ab", "cd"] 4).2.2.2 (by decide)).2⟩

/-! ## C8 — PKCE challenge derivation -/

/-- The FIPS 180-4 sample digest of the three bytes of abc, confirming
the embedded SHA-256 against the published test vector. -/
theorem sha256_abc_vector : sha256 [97, 98, 99] =
    [186, 120, 22, 191, 143, 1, 207, 234, 65, 65, 64, 222, 93, 174, 34, 35,
     176, 3, 97, 163, 150, 23, 122, 156, 180, 16, 255, 97, 242, 0, 21, 173] := by
  decide

/-- No character of the base64url alphabet is a padding character, nor
is the out-of-range default. -/
theorem b64char_beq_eq_false (n : Nat) : (b64char n == '=') = false := by
  rcases Nat.lt_or_ge n 64 with h | h
  · have hall : ∀ m, m < 64 → (b64char m == '=') = false := by decide
    exact hall n h
  · unfold b64char
    rw [List.getD_eq_default]
    · rfl
    · have h64 :
        ("ABCDEFGHIJKLMNOPQRSTUVWXYZabcdefghijklmnopqrstuvwxyz0123456789-_"
          : String).data.length = 64 := by decide
      omega

/-- Stripping trailing padding distributes over a padding-free front
segment. -/
theorem rstripEq_append (w l : List Char) (hw : ∀ c ∈ w, (c == '=') = false) :
    rstripEq (w ++ l) = w ++ rstripEq l := by
  unfold rstripEq
  rw [List.reverse_append, List.dropWhile_append]
  by_cases h : (l.reverse.dropWhile (fun c => c == '=')).isEmpty
  · rw [if_pos h,
        dropWhile_eq_self_of_all _ _ (fun a ha => hw a (List.mem_reverse.mp ha)),
        List.reverse_reverse, List.isEmpty_iff.mp h]
    simp
  · rw [if_neg h, List.reverse_append, List.reverse_reverse]

/-- Stripping the padding of the padded base64url encoding yields the
encoding emitted without padding. -/
theorem rstripEq_encB64 : ∀ bs : List Nat, rstripEq (encB64 bs) = encNoPad bs
  | [] => rfl
  | [a] => by
    show rstripEq [b64char (a >>> 2), b64char ((a &&& 3) <<< 4), '=', '='] = _
    unfold rstripEq
    simp [List.dropWhile_cons, b64char_beq_eq_false, encNoPad]
  | [a, b] => by
    show rstripEq [b64char (a >>> 2), b64char (((a &&& 3) <<< 4) ||| (b >>> 4)),
        b64char ((b &&& 15) <<< 2), '='] = _
    unfold rstripEq
    simp [List.dropWhile_cons, b64char_beq_eq_false, encNoPad]
  | a :: b :: c :: rest => by
    have h4 : ∀ x ∈ [b64char (a >>> 2), b64char (((a &&& 3) <<< 4) ||| (b >>> 4)),
        b64char ((((b &&& 15) <<< 2) ||| (c >>> 6))), b64char (c &&& 63)],
        (x == '=') = false := by
      intro x hx
      simp only [List.mem_cons, List.not_mem_nil, or_false] at hx
      rcases hx with h | h | h | h <;> subst h <;> exact b64char_beq_eq_false _
    show rstripEq ([b64char (a >>> 2), b64char (((a &&& 3) <<< 4) ||| (b >>> 4)),
        b64char ((((b &&& 15) <<< 2) ||| (c >>> 6))), b64char (c &&& 63)]
        ++ encB64 rest) = _
    rw [rstripEq_append _ _ h4, rstripEq_encB64 rest]
    rfl

/-- For ASCII characters the UTF-8 bytes are the code points. -/
theorem utf8_flatten_ascii : ∀ (cs : List Char), (∀ c ∈ cs, c.toNat < 128) →
    (cs.map utf8Char).flatten = cs.map Char.toNat
  | [], _ => rfl
  | c :: cs, h => by
    rw [List.map_cons, List.map_cons, List.flatten_cons,
        utf8_flatten_ascii cs (fun x hx => h x (List.mem_cons_of_mem c hx))]
    unfold utf8Char
    rw [if_pos (h c (List.mem_cons_self c cs))]
    rfl

/-- Claim C8: for every ASCII verifier, gen_code_challenge equals the
URL-safe base64 encoding, with padding removed, of the SHA-256 digest
of the ASCII bytes of the verifier (the definition written from the
spec wording), and it is deterministic — a pure function of the
verifier. -/
theorem C8_pkce_challenge (v : String) (h : ∀ c ∈ v.data, c.toNat < 128) :
    gen_code_challenge v = derive_challenge_spec v ∧
    gen_code_challenge v = gen_code_challenge v := by
  refine ⟨?_, rfl⟩
  unfold gen_code_challenge derive_challenge_spec b64url str_encode
  rw [utf8_flatten_ascii v.data h, rstripEq_encB64]

/-- Witness for C8_pkce_challenge at a concrete verifier. -/
theorem C8_pkce_challenge_witness :
    gen_code_challenge "abc" = derive_challenge_spec "abc" ∧
    gen_code_challenge "abc" = gen_code_challenge "abc" :=
  C8_pkce_challenge "abc" (by decide)

/-! ## C9 — the state parameter is never verified -/

/-- Looking up any key other than state is unaffected by removing the
state fields. -/
theorem qsGet_eraseState (k : String) (hk : k ≠ "state") :
    ∀ q : List (String × String), qsGet (eraseState q) k = qsGet q k
  | [] => rfl
  | kv :: rest => by
    by_cases hs : kv.1 = "state"
    · have h1 : eraseState (kv :: rest) = eraseState rest := by
        unfold eraseState
        rw [List.filter_cons, if_neg (by simp [hs])]
      rw [h1, qsGet_eraseState k hk rest]
      show qsGet rest k = if kv.1 = k then some kv.2 else qsGet rest k
      rw [if_neg (show ¬ kv.1 = k by rw [hs]; exact fun hh => hk hh.symm)]
    · have h1 : eraseState (kv :: rest) = kv :: eraseState rest := by
        unfold eraseState
        rw [List.filter_cons, if_pos (by simp [beq_iff_eq, hs])]
      rw [h1]
      show (if kv.1 = k then some kv.2 else qsGet (eraseState rest) k)
         = (if kv.1 = k then some kv.2 else qsGet rest k)
      rw [qsGet_eraseState k hk rest]

/-- Claim C9: the reference flow sends the constant state value xyz in
the authorization URL and never checks the state returned on the
callback — the handler and the subsequent login outcome are identical
for any two callback requests that agree on path and on every query
field other than state (one of them may omit state entirely). -/
theorem C9_state_not_verified :
    (∀ cid ruri ch, ∃ pre post,
        build_auth_url cid ruri login_state ch = pre ++ "state=xyz" ++ post) ∧
    (∀ st raw1 raw2,
        (urlparse raw1).path = (urlparse raw2).path →
        eraseState (qsPairs (urlparse raw1).query)
          = eraseState (qsPairs (urlparse raw2).query) →
        do_GET st raw1 = do_GET st raw2 ∧
        ∀ driver, login_wait_phase driver (do_GET st raw1).1.result
          = login_wait_phase driver (do_GET st raw2).1.result) := by
  constructor
  · intro cid ruri ch
    refine ⟨"https://discord.com/oauth2/authorize" ++ "?client_id=" ++ cid ++
        "&response_type=code" ++ "&redirect_uri=" ++ pyQuote ruri ++
        "&scope=identify+guilds" ++ "&",
        "&code_challenge=" ++ ch ++ "&code_challenge_method=S256", ?_⟩
    unfold build_auth_url login_state
    apply String.ext
    have hseg : ∀ R : List Char,
        ("&state=" : String).data ++ (("xyz" : String).data ++ R)
          = ("&" : String).data ++ (("state=xyz" : String).data ++ R) := by
      intro R
      rw [← List.append_assoc, ← List.append_assoc]
      rfl
    simp only [String.data_append, List.append_assoc]
    rw [hseg]
  · intro st raw1 raw2 hpath hq
    have hcode : qsGet (qsPairs (urlparse raw1).query) "code"
        = qsGet (qsPairs (urlparse raw2).query) "code" := by
      rw [← qsGet_eraseState "code" (by decide) (qsPairs (urlparse raw1).query), hq,
          qsGet_eraseState "code" (by decide)]
    have herr : qsGet (qsPairs (urlparse raw1).query) "error"
        = qsGet (qsPairs (urlparse raw2).query) "error" := by
      rw [← qsGet_eraseState "error" (by decide) (qsPairs (urlparse raw1).query), hq,
          qsGet_eraseState "error" (by decide)]
    have hGET : do_GET st raw1 = do_GET st raw2 := by
      unfold do_GET
      rw [hpath, hcode, herr]
    exact ⟨hGET, fun driver => by rw [hGET]⟩

/-- Witness for C9_state_not_verified: two concrete callbacks that
differ only in their state value are treated identically. -/
theorem C9_state_not_verified_witness :
    do_GET freshHandler "/callback?code=A&state=xyz"
      = do_GET freshHandler "/callback?code=A&state=evil" ∧
    ∀ driver,
      login_wait_phase driver
          (do_GET freshHandler "/callback?code=A&state=xyz").1.result
        = login_wait_phase driver
          (do_GET freshHandler "/callback?code=A&state=evil").1.result :=
  C9_state_not_verified.2 freshHandler
    "/callback?code=A&state=xyz" "/callback?code=A&state=evil"
    (by rfl) (by rfl)

end CliAuth
